import Mathlib

/-
Verification of the template-name resolution and context-composition module
django_mc/mixins.py.  The module defines four cooperating mixins:

* TemplateHintProvider: contributes template hints and extra context data;
  its method suggest_template_names builds one candidate template name per
  truthy hint via the name provider.
* CompositeTemplateHintProvider: a list of hint providers; each of its three
  methods iterates over the providers (defaulting the hint_providers argument
  to the composite itself) and combines the results (list extension for hints
  and names, dict update for context data).
* TemplateNameProvider: renders the default template_name pattern into a
  concrete file name from app_label, object_name and the keyword arguments
  type, partial and hint; get_template_names concatenates the suggestions of
  all hint providers and appends the unhinted name as a fallback.
* Renderable: supplies the context dict used to render the object.

Python values that matter here are modelled by PyVal; hints are modelled as
Option String (None or a string, where None and the empty string are falsy);
context dicts are association lists with insertion-order update semantics,
the invariant being that keys never repeat.  The hint_providers argument is
passed around as an opaque duck-typed value: the type parameter A stands for
whatever object is handed to the provider methods, and ProvidersArg pairs
that value with the list of providers it contains, which is what the loops
of the module iterate over.
-/

namespace DjangoMC

/-- A Python runtime value as far as this module observes it: a string, an
opaque object reference (numbered), or None. -/
inductive PyVal : Type where
  | str : String → PyVal
  | obj : Nat → PyVal
  | pyNone : PyVal
  deriving DecidableEq, Repr

/-- A Python dict with PyVal keys and values, as an insertion-ordered
association list.  Dicts built by the module never repeat a key. -/
abbrev CtxDict : Type := List (PyVal × PyVal)

/-- The keys of a dict, in insertion order. -/
def dictKeys (d : CtxDict) : List PyVal := d.map Prod.fst

/-- Lookup of a key, mirroring Python d[k] / d.get(k). -/
def dictGet : CtxDict → PyVal → Option PyVal
  | [], _ => none
  | (k0, v0) :: d, k => if k0 = k then some v0 else dictGet d k

/-- Python dict assignment d[k] = v: an existing key keeps its position and
gets the new value, a new key is appended at the end. -/
def dictSet : CtxDict → PyVal → PyVal → CtxDict
  | [], k, v => [(k, v)]
  | (k0, v0) :: d, k, v => if k0 = k then (k, v) :: d else (k0, v0) :: dictSet d k v

/-- Python d.update(other): assign every key/value pair of other, in order. -/
def dictUpdate (d other : CtxDict) : CtxDict :=
  other.foldl (fun acc p => dictSet acc p.1 p.2) d

/-- The dict invariant: no key occurs twice.  Every genuine Python dict
satisfies it. -/
def dictNodupKeys (d : CtxDict) : Prop := (dictKeys d).Nodup

instance (d : CtxDict) : Decidable (dictNodupKeys d) := by
  unfold dictNodupKeys; infer_instance

/-- Truthiness of an optional string in Python: None and the empty string
are falsy, every other string is truthy. -/
def pyTruthyStr : Option String → Bool
  | none => false
  | some s => decide (s ≠ "")

/-- The keyword arguments that the module documents for get_template_name:
type, partial (only its truthiness matters) and hint.  A missing keyword is
modelled by none (resp. false for partial). -/
structure Kwargs : Type where
  type : Option String
  isPart : Bool
  hint : Option String
  deriving DecidableEq, Repr

/-- The keyword arguments threaded through suggest_template_names and
get_template_names; they must not contain hint, which is supplied by
suggest_template_names itself. -/
structure KwargsNH : Type where
  type : Option String
  isPart : Bool
  deriving DecidableEq, Repr

/-- Add a hint keyword to the threaded keyword arguments, as done by the
call name_provider.get_template_name(hint=hint, **kwargs). -/
def KwargsNH.withHint (kw : KwargsNH) (h : Option String) : Kwargs :=
  ⟨kw.type, kw.isPart, h⟩

/-- A name provider as the hint-provider methods see it: any object with a
get_template_name method.  The function field models an arbitrary override
of that method. -/
structure NameProviderObj : Type where
  get_template_name : Kwargs → String

/-- Python str.lower() as the module applies it to app labels and model
class names: lower-case every character.  Defined structurally over the
character list so that proofs can evaluate it on concrete names. -/
def pyLower (s : String) : String := String.mk (s.data.map Char.toLower)

/-- The model metadata a TemplateNameProvider reads: the _meta attribute of
a framework model, with its app_label and object_name. -/
structure DjangoMeta : Type where
  app_label : String
  object_name : String

/-- The default TemplateNameProvider state: it only reads self._meta. -/
structure TemplateNameProvider : Type where
  meta : DjangoMeta

def TemplateNameProvider.get_app_label (np : TemplateNameProvider) : String :=
  pyLower np.meta.app_label

def TemplateNameProvider.get_model_name (np : TemplateNameProvider) : String :=
  pyLower np.meta.object_name

/-- Rendering of the default template_name pattern

  app_label / [if partial or type == "partial" then _] object_name
  [if type != "partial" then _ type] [if hint truthy then _ hint] .html

under the standard template-language semantics: a variable node renders the
value (a missing variable renders as empty), an if node compares a missing
variable as unequal to any string and treats it as falsy. -/
def renderDefaultPattern (app_label object_name : String) (kw : Kwargs) : String :=
  app_label ++ "/"
    ++ (if kw.isPart || kw.type = some ("partial") then "_" else "")
    ++ object_name
    ++ (if kw.type ≠ some ("partial") then "_" ++ kw.type.getD ("") else "")
    ++ (if pyTruthyStr kw.hint then "_" ++ kw.hint.getD ("") else "")
    ++ ".html"

/-- TemplateNameProvider.get_template_name with the default template_name
class attribute: build the context from app label, model name and the
keyword arguments, and render the default pattern with it. -/
def TemplateNameProvider.get_template_name (np : TemplateNameProvider) (kw : Kwargs) : String :=
  renderDefaultPattern np.get_app_label np.get_model_name kw

/-- The default name provider seen as a duck-typed name-provider object. -/
def TemplateNameProvider.toObj (np : TemplateNameProvider) : NameProviderObj :=
  ⟨np.get_template_name⟩

/-- A TemplateHintProvider: the two override points of the class.  The type
A is the opaque type of the hint_providers argument.  The base class returns
an empty hint list and an empty context dict. -/
structure TemplateHintProvider (A : Type) : Type where
  get_template_hints : NameProviderObj → A → List (Option String)
  suggest_context_data : NameProviderObj → A → CtxDict

/-- The base class TemplateHintProvider itself, with its default methods
returning an empty hint list and an empty context dict. -/
def TemplateHintProvider.base (A : Type) : TemplateHintProvider A :=
  ⟨fun _ _ => [], fun _ _ => []⟩

/-- TemplateHintProvider.suggest_template_names: start from an empty list
and, for each hint produced by get_template_hints, append the name built by
the name provider for that hint, skipping falsy hints. -/
def TemplateHintProvider.suggest_template_names {A : Type} (self : TemplateHintProvider A)
    (name_provider : NameProviderObj) (hint_providers : A) (kw : KwargsNH) : List String :=
  (self.get_template_hints name_provider hint_providers).foldl
    (fun template_names hint =>
      if pyTruthyStr hint then
        template_names ++ [name_provider.get_template_name (kw.withHint hint)]
      else template_names)
    []

/-- The duck-typed interface a hint provider presents to the composite and
to get_template_names: its three methods. -/
structure HintProviderI (A : Type) : Type where
  get_template_hints : NameProviderObj → A → List (Option String)
  suggest_context_data : NameProviderObj → A → CtxDict
  suggest_template_names : NameProviderObj → A → KwargsNH → List String

/-- A TemplateHintProvider seen through the duck-typed interface, with the
inherited suggest_template_names. -/
def TemplateHintProvider.toI {A : Type} (self : TemplateHintProvider A) : HintProviderI A :=
  ⟨self.get_template_hints, self.suggest_context_data, self.suggest_template_names⟩

/-- The hint_providers argument as the module uses it: the opaque value that
is passed down to provider methods, together with the providers obtained by
iterating over it. -/
structure ProvidersArg (A : Type) : Type where
  val : A
  elems : List (HintProviderI A)

/-- A CompositeTemplateHintProvider: a list of hint providers.  selfVal is
the composite itself viewed as the opaque hint_providers value it passes to
its children when the argument defaults to self. -/
structure CompositeTHP (A : Type) : Type where
  children : List (HintProviderI A)
  selfVal : A

/-- The composite as a hint_providers argument: iterating over the composite
yields its children. -/
def CompositeTHP.selfArg {A : Type} (c : CompositeTHP A) : ProvidersArg A :=
  ⟨c.selfVal, c.children⟩

/-- CompositeTemplateHintProvider.get_template_hints: default the argument
to self, then extend an initially empty list with each providers hints. -/
def CompositeTHP.get_template_hints {A : Type} (c : CompositeTHP A)
    (np : NameProviderObj) (hint_providers : Option (ProvidersArg A)) : List (Option String) :=
  (hint_providers.getD c.selfArg).elems.foldl
    (fun template_hints p =>
      template_hints ++ p.get_template_hints np (hint_providers.getD c.selfArg).val)
    []

/-- CompositeTemplateHintProvider.suggest_context_data: default the argument
to self, then update an initially empty dict with each providers context. -/
def CompositeTHP.suggest_context_data {A : Type} (c : CompositeTHP A)
    (np : NameProviderObj) (hint_providers : Option (ProvidersArg A)) : CtxDict :=
  (hint_providers.getD c.selfArg).elems.foldl
    (fun context_data p =>
      dictUpdate context_data (p.suggest_context_data np (hint_providers.getD c.selfArg).val))
    []

/-- CompositeTemplateHintProvider.suggest_template_names: default the
argument to self, then extend an initially empty list with each providers
suggested names. -/
def CompositeTHP.suggest_template_names {A : Type} (c : CompositeTHP A)
    (np : NameProviderObj) (hint_providers : Option (ProvidersArg A)) (kw : KwargsNH) : List String :=
  (hint_providers.getD c.selfArg).elems.foldl
    (fun template_names p =>
      template_names ++ p.suggest_template_names np (hint_providers.getD c.selfArg).val kw)
    []

/-- TemplateNameProvider.get_template_names, stated for any duck-typed name
provider: extend an initially empty list with every providers suggestions,
then append the unhinted template name as a fallback. -/
def NameProviderObj.get_template_names {A : Type} (self : NameProviderObj)
    (hint_providers : ProvidersArg A) (kw : KwargsNH) : List String :=
  (hint_providers.elems.foldl
    (fun template_names p =>
      template_names ++ p.suggest_template_names self hint_providers.val kw)
    [])
  ++ [self.get_template_name (kw.withHint none)]

/-- A Renderable: a default name provider together with the
context_object_name class attribute (None by default). -/
structure Renderable : Type where
  meta : DjangoMeta
  context_object_name : Option String

def Renderable.toTNP (r : Renderable) : TemplateNameProvider := ⟨r.meta⟩

/-- Renderable.get_context_object_name: the context_object_name attribute if
it is truthy, the lower-cased model name otherwise. -/
def Renderable.get_context_object_name (r : Renderable) : String :=
  if pyTruthyStr r.context_object_name then r.context_object_name.getD ("")
  else r.toTNP.get_model_name

/-- Renderable.get_context_data: the dict literal binding the context object
name and the key "object" to the renderable itself (modelled as an opaque
object reference self_ref). -/
def Renderable.get_context_data (r : Renderable) (self_ref : Nat) : CtxDict :=
  dictSet (dictSet [] (PyVal.str r.get_context_object_name) (PyVal.obj self_ref))
    (PyVal.str ("object")) (PyVal.obj self_ref)

/-- Left-biased choice on optional values, the combinator underlying lookup
in an updated dict. -/
def oOr : Option PyVal → Option PyVal → Option PyVal
  | some v, _ => some v
  | none, b => b

theorem oOr_none_right (a : Option PyVal) : oOr a none = a := by
  cases a <;> rfl

theorem oOr_assoc (a b c : Option PyVal) : oOr (oOr a b) c = oOr a (oOr b c) := by
  cases a <;> cases b <;> rfl

theorem foldl_append_eq_flatten {α β : Type} (f : α → List β) (l : List α) :
    ∀ init : List β,
      l.foldl (fun acc x => acc ++ f x) init = init ++ (l.map f).flatten := by
  induction l with
  | nil => intro init; simp
  | cons x l ih => intro init; simp [ih]

theorem foldl_filter_append {α β : Type} (g : α → Bool) (f : α → β) (l : List α) :
    ∀ init : List β,
      l.foldl (fun acc x => if g x then acc ++ [f x] else acc) init
        = init ++ (l.filter g).map f := by
  induction l with
  | nil => intro init; simp
  | cons x l ih =>
    intro init
    by_cases hx : g x <;> simp [hx, ih]

theorem dictKeys_nil : dictKeys [] = [] := rfl

theorem dictKeys_cons (k0 v0 : PyVal) (d : CtxDict) :
    dictKeys ((k0, v0) :: d) = k0 :: dictKeys d := rfl

theorem dictGet_dictSet (d : CtxDict) (k v q : PyVal) :
    dictGet (dictSet d k v) q = if q = k then some v else dictGet d q := by
  induction d with
  | nil =>
    rcases eq_or_ne q k with h | h
    · subst h; simp [dictSet, dictGet]
    · simp [dictSet, dictGet, h, Ne.symm h]
  | cons kv0 d ih =>
    obtain ⟨k0, v0⟩ := kv0
    rcases eq_or_ne k0 k with h0 | h0
    · subst h0
      rcases eq_or_ne q k0 with h | h
      · subst h; simp [dictSet, dictGet]
      · simp [dictSet, dictGet, h, Ne.symm h]
    · rcases eq_or_ne q k with h | h
      · subst h
        simp [dictSet, dictGet, h0, Ne.symm h0, ih]
      · rcases eq_or_ne k0 q with hq | hq <;>
          simp [dictSet, dictGet, h0, hq, h, ih]

theorem dictGet_eq_none_iff (d : CtxDict) (k : PyVal) :
    dictGet d k = none ↔ k ∉ dictKeys d := by
  induction d with
  | nil => simp [dictGet, dictKeys_nil]
  | cons kv0 d ih =>
    obtain ⟨k0, v0⟩ := kv0
    rw [dictKeys_cons]
    rcases eq_or_ne k0 k with h | h
    · subst h; simp [dictGet]
    · simp [dictGet, h, Ne.symm h, ih]

theorem mem_dictSet {d : CtxDict} {k v : PyVal} {kv : PyVal × PyVal}
    (h : kv ∈ dictSet d k v) : kv = (k, v) ∨ kv ∈ d := by
  induction d with
  | nil => simpa [dictSet] using h
  | cons kv0 d ih =>
    obtain ⟨k0, v0⟩ := kv0
    rcases eq_or_ne k0 k with h0 | h0
    · subst h0
      rw [show dictSet ((k0, v0) :: d) k0 v = (k0, v) :: d from by simp [dictSet]] at h
      rcases List.mem_cons.1 h with h | h
      · exact Or.inl h
      · exact Or.inr (List.mem_cons_of_mem _ h)
    · rw [show dictSet ((k0, v0) :: d) k v = (k0, v0) :: dictSet d k v from by
        simp [dictSet, h0]] at h
      rcases List.mem_cons.1 h with h | h
      · exact Or.inr (h ▸ List.mem_cons_self _ _)
      · rcases ih h with h | h
        · exact Or.inl h
        · exact Or.inr (List.mem_cons_of_mem _ h)

theorem mem_dictUpdate {kv : PyVal × PyVal} :
    ∀ {d2 d1 : CtxDict}, kv ∈ dictUpdate d1 d2 → kv ∈ d1 ∨ kv ∈ d2 := by
  intro d2
  induction d2 with
  | nil => intro d1 h; exact Or.inl h
  | cons p rest ih =>
    intro d1 h
    have h2 : kv ∈ dictUpdate (dictSet d1 p.1 p.2) rest := h
    rcases ih h2 with h3 | h3
    · rcases mem_dictSet h3 with h4 | h4
      · exact Or.inr (h4 ▸ List.mem_cons_self _ _)
      · exact Or.inl h4
    · exact Or.inr (List.mem_cons_of_mem _ h3)

theorem dictGet_dictUpdate {d2 : CtxDict} (h2 : dictNodupKeys d2) :
    ∀ (d1 : CtxDict) (k : PyVal),
      dictGet (dictUpdate d1 d2) k = oOr (dictGet d2 k) (dictGet d1 k) := by
  induction d2 with
  | nil => intro d1 k; simp [dictUpdate, dictGet, oOr]
  | cons p rest ih =>
    obtain ⟨k0, v0⟩ := p
    intro d1 k
    have hnd : k0 ∉ dictKeys rest ∧ (dictKeys rest).Nodup := by
      simpa [dictNodupKeys, dictKeys] using h2
    have step : dictGet (dictUpdate (dictSet d1 k0 v0) rest) k
        = oOr (dictGet rest k) (dictGet (dictSet d1 k0 v0) k) := ih hnd.2 _ k
    have lhs : dictUpdate d1 ((k0, v0) :: rest) = dictUpdate (dictSet d1 k0 v0) rest := rfl
    rw [lhs, step, dictGet_dictSet]
    rcases eq_or_ne k k0 with hk | hk
    · subst hk
      have hnone : dictGet rest k = none := (dictGet_eq_none_iff rest k).2 hnd.1
      simp [dictGet, hnone, oOr]
    · simp [dictGet, hk, Ne.symm hk, oOr]

theorem findSome?_singleton {α : Type} (f : α → Option PyVal) (d : α) :
    List.findSome? f [d] = f d := by
  cases h : f d <;> simp [List.findSome?_cons, h]

theorem findSome?_append_oOr {α : Type} (f : α → Option PyVal) (l1 l2 : List α) :
    (l1 ++ l2).findSome? f = oOr (l1.findSome? f) (l2.findSome? f) := by
  induction l1 with
  | nil => simp [oOr]
  | cons a l ih =>
    cases hfa : f a <;> simp [List.findSome?_cons, hfa, ih, oOr]

theorem dictGet_foldl_update (k : PyVal) :
    ∀ (ds : List CtxDict), (∀ d ∈ ds, dictNodupKeys d) → ∀ d0 : CtxDict,
      dictGet (ds.foldl dictUpdate d0) k
        = oOr (ds.reverse.findSome? (fun d => dictGet d k)) (dictGet d0 k) := by
  intro ds
  induction ds with
  | nil => intro _ d0; simp [oOr]
  | cons d rest ih =>
    intro hnd d0
    have hd : dictNodupKeys d := hnd d (List.mem_cons_self _ _)
    have hrest : ∀ e ∈ rest, dictNodupKeys e := fun e he => hnd e (List.mem_cons_of_mem _ he)
    rw [List.foldl_cons, ih hrest (dictUpdate d0 d), dictGet_dictUpdate hd,
      List.reverse_cons, findSome?_append_oOr, findSome?_singleton, oOr_assoc]

theorem mem_foldl_update {kv : PyVal × PyVal} :
    ∀ (ds : List CtxDict) (d0 : CtxDict), kv ∈ ds.foldl dictUpdate d0 →
      kv ∈ d0 ∨ ∃ d ∈ ds, kv ∈ d := by
  intro ds
  induction ds with
  | nil => intro d0 h; exact Or.inl h
  | cons d rest ih =>
    intro d0 h
    rcases ih (dictUpdate d0 d) h with h1 | h1
    · rcases mem_dictUpdate h1 with h2 | h2
      · exact Or.inl h2
      · exact Or.inr ⟨d, List.mem_cons_self _ _, h2⟩
    · obtain ⟨e, he, hkv⟩ := h1
      exact Or.inr ⟨e, List.mem_cons_of_mem _ he, hkv⟩

theorem strAppend_assoc (a b c : String) : a ++ b ++ c = a ++ (b ++ c) := by
  apply String.ext
  simp [String.data_append]

theorem suggest_template_names_eq_filter_map {A : Type} (self : TemplateHintProvider A)
    (np : NameProviderObj) (hps : A) (kw : KwargsNH) :
    self.suggest_template_names np hps kw
      = ((self.get_template_hints np hps).filter pyTruthyStr).map
          (fun h => np.get_template_name (kw.withHint h)) := by
  unfold TemplateHintProvider.suggest_template_names
  rw [foldl_filter_append pyTruthyStr (fun h => np.get_template_name (kw.withHint h))]
  simp

theorem composite_hints_eq_flatten {A : Type} (c : CompositeTHP A)
    (np : NameProviderObj) (harg : Option (ProvidersArg A)) :
    c.get_template_hints np harg
      = ((harg.getD c.selfArg).elems.map
          (fun p => p.get_template_hints np (harg.getD c.selfArg).val)).flatten := by
  unfold CompositeTHP.get_template_hints
  have h := foldl_append_eq_flatten
    (fun p => p.get_template_hints np (harg.getD c.selfArg).val)
    (harg.getD c.selfArg).elems []
  simp only [List.nil_append] at h
  rw [h]

theorem composite_names_eq_flatten {A : Type} (c : CompositeTHP A)
    (np : NameProviderObj) (harg : Option (ProvidersArg A)) (kw : KwargsNH) :
    c.suggest_template_names np harg kw
      = ((harg.getD c.selfArg).elems.map
          (fun p => p.suggest_template_names np (harg.getD c.selfArg).val kw)).flatten := by
  unfold CompositeTHP.suggest_template_names
  have h := foldl_append_eq_flatten
    (fun p => p.suggest_template_names np (harg.getD c.selfArg).val kw)
    (harg.getD c.selfArg).elems []
  simp only [List.nil_append] at h
  rw [h]

theorem composite_ctx_eq_foldl {A : Type} (c : CompositeTHP A)
    (np : NameProviderObj) (harg : Option (ProvidersArg A)) :
    c.suggest_context_data np harg
      = ((harg.getD c.selfArg).elems.map
          (fun p => p.suggest_context_data np (harg.getD c.selfArg).val)).foldl dictUpdate [] := by
  unfold CompositeTHP.suggest_context_data
  rw [List.foldl_map]

theorem get_template_names_eq {A : Type} (np : NameProviderObj)
    (hps : ProvidersArg A) (kw : KwargsNH) :
    np.get_template_names hps kw
      = (hps.elems.map (fun p => p.suggest_template_names np hps.val kw)).flatten
        ++ [np.get_template_name (kw.withHint none)] := by
  unfold NameProviderObj.get_template_names
  have h := foldl_append_eq_flatten
    (fun p => p.suggest_template_names np hps.val kw) hps.elems []
  simp only [List.nil_append] at h
  rw [h]

/-- Concrete inputs used by the witnesses below: a gallery image model. -/
def metaX : DjangoMeta := ⟨"Gallery", "Image"⟩

def npX : NameProviderObj := (TemplateNameProvider.mk metaX).toObj

def kwX : KwargsNH := ⟨some ("detail"), false⟩

def emptyArg : ProvidersArg Unit := ⟨(), []⟩

/-- A concrete hint provider contributing one truthy hint among falsy ones. -/
def thpX : TemplateHintProvider Unit :=
  ⟨fun _ _ => [some ("fancy"), none, some ("")], fun _ _ => []⟩

def pX : HintProviderI Unit := thpX.toI

def argX : ProvidersArg Unit := ⟨(), [pX]⟩

def sX : String := npX.get_template_name (kwX.withHint (some ("fancy")))

/-- C1: for every hint provider and every name provider, the candidate list
returned by TemplateHintProvider.suggest_template_names preserves the order
of the hint list returned by get_template_hints: there is a strictly
monotone index map f such that the candidate at position ix is the name
built from the hint at position f ix. -/
theorem suggest_template_names_preserves_hint_order {A : Type}
    (self : TemplateHintProvider A) (np : NameProviderObj) (hps : A) (kw : KwargsNH) :
    ∃ f : ℕ ↪o ℕ, ∀ ix : ℕ,
      (self.suggest_template_names np hps kw)[ix]?
        = ((self.get_template_hints np hps)[f ix]?).map
            (fun h => np.get_template_name (kw.withHint h)) := by
  obtain ⟨f, hf⟩ := List.sublist_iff_exists_orderEmbedding_get?_eq.1
    (List.filter_sublist (p := pyTruthyStr) (self.get_template_hints np hps))
  refine ⟨f, fun ix => ?_⟩
  have h2 := hf ix
  rw [List.get?_eq_getElem?, List.get?_eq_getElem?] at h2
  rw [suggest_template_names_eq_filter_map, List.getElem?_map, h2]

/-- C8: falsy hints (None or the empty string) are skipped by
TemplateHintProvider.suggest_template_names: the output is exactly one
candidate name per truthy hint, in hint order, so its length is the number
of truthy hints. -/
theorem suggest_template_names_skips_falsy {A : Type}
    (self : TemplateHintProvider A) (np : NameProviderObj) (hps : A) (kw : KwargsNH) :
    self.suggest_template_names np hps kw
      = ((self.get_template_hints np hps).filter pyTruthyStr).map
          (fun h => np.get_template_name (kw.withHint h))
    ∧ (self.suggest_template_names np hps kw).length
      = (self.get_template_hints np hps).countP pyTruthyStr := by
  refine ⟨suggest_template_names_eq_filter_map self np hps kw, ?_⟩
  rw [suggest_template_names_eq_filter_map, List.length_map,
    List.countP_eq_length_filter]

/-- C3 counterexample: with no hint providers, get_template_names returns
the one-element fallback list, not the empty concatenation of the (zero)
provider outputs, so get_template_names does not equal that concatenation. -/
theorem get_template_names_ne_flatten_counterexample :
    npX.get_template_names emptyArg kwX
      ≠ (emptyArg.elems.map
          (fun p => p.suggest_template_names npX emptyArg.val kwX)).flatten := by
  decide

/-- C3 (amended): TemplateNameProvider.get_template_names equals the
concatenation, in provider order, of each providers suggest_template_names
output, followed by the single unhinted fallback name; and
CompositeTemplateHintProvider.suggest_template_names equals the
concatenation, in child order, of its childrens outputs. -/
theorem get_template_names_concatenation {A : Type} (np : NameProviderObj)
    (hps : ProvidersArg A) (kw : KwargsNH) (c : CompositeTHP A)
    (harg : Option (ProvidersArg A)) :
    np.get_template_names hps kw
      = (hps.elems.map (fun p => p.suggest_template_names np hps.val kw)).flatten
        ++ [np.get_template_name (kw.withHint none)]
    ∧ c.suggest_template_names np harg kw
      = ((harg.getD c.selfArg).elems.map
          (fun p => p.suggest_template_names np (harg.getD c.selfArg).val kw)).flatten :=
  ⟨get_template_names_eq np hps kw, composite_names_eq_flatten c np harg kw⟩

/-- C4: get_template_names performs no existence filtering: every candidate
suggested by any provider is in the returned list, the unhinted fallback is
in the returned list, and the length of the returned list is the total
number of suggestions plus one, so no candidate is dropped. -/
theorem get_template_names_keeps_all_candidates {A : Type} (np : NameProviderObj)
    (hps : ProvidersArg A) (kw : KwargsNH) (p : HintProviderI A) (s : String)
    (hp : p ∈ hps.elems) (hs : s ∈ p.suggest_template_names np hps.val kw) :
    s ∈ np.get_template_names hps kw
    ∧ np.get_template_name (kw.withHint none) ∈ np.get_template_names hps kw
    ∧ (np.get_template_names hps kw).length
      = (hps.elems.map
          (fun q => (q.suggest_template_names np hps.val kw).length)).sum + 1 := by
  rw [get_template_names_eq]
  refine ⟨?_, ?_, ?_⟩
  · exact List.mem_append.2 (Or.inl (List.mem_flatten.2 ⟨_, List.mem_map_of_mem _ hp, hs⟩))
  · exact List.mem_append.2 (Or.inr (List.mem_singleton.2 rfl))
  · rw [List.length_append, List.length_flatten, List.map_map]
    rfl

/-- C4 witness: a concrete provider suggesting one name; that name and the
fallback are both in the result. -/
theorem get_template_names_keeps_all_candidates_witness :
    pX ∈ argX.elems
    ∧ sX ∈ pX.suggest_template_names npX argX.val kwX
    ∧ sX ∈ npX.get_template_names argX kwX :=
  ⟨List.mem_singleton.2 rfl, by decide,
    (get_template_names_keeps_all_candidates npX argX kwX pX sX
      (List.mem_singleton.2 rfl) (by decide)).1⟩

/-- C9: get_template_names always returns a non-empty list ending in the
unhinted fallback name, and when every provider contributes no suggestion
(in particular when there are no providers) the result is exactly the
one-element fallback list. -/
theorem get_template_names_fallback_last {A : Type} (np : NameProviderObj)
    (hps : ProvidersArg A) (kw : KwargsNH)
    (hempty : ∀ p ∈ hps.elems, p.suggest_template_names np hps.val kw = []) :
    (∀ q : ProvidersArg A, np.get_template_names q kw ≠ []
      ∧ (np.get_template_names q kw).getLast?
          = some (np.get_template_name (kw.withHint none)))
    ∧ np.get_template_names hps kw = [np.get_template_name (kw.withHint none)] := by
  constructor
  · intro q
    rw [get_template_names_eq]
    exact ⟨by simp, List.getLast?_concat _⟩
  · rw [get_template_names_eq]
    have hnil : (hps.elems.map
        (fun p => p.suggest_template_names np hps.val kw)).flatten = [] := by
      rw [List.flatten_eq_nil_iff]
      intro l hl
      obtain ⟨p, hpp, rfl⟩ := List.mem_map.1 hl
      exact hempty p hpp
    rw [hnil]
    rfl

/-- C9 witness: with no providers the result is exactly the singleton
fallback list. -/
theorem get_template_names_fallback_last_witness :
    npX.get_template_names emptyArg kwX = [npX.get_template_name (kwX.withHint none)] :=
  (get_template_names_fallback_last npX emptyArg kwX
    (by intro p hp; cases hp)).2

/-- C2: the context dict returned by
CompositeTemplateHintProvider.suggest_context_data has as keys exactly the
union of the keys of the childrens context dicts, and looking up any key
returns the value contributed by the latest child (in list order) whose
dict has that key.  The hypothesis is the Python dict invariant: no childs
dict repeats a key. -/
theorem composite_context_merge {A : Type} (c : CompositeTHP A) (np : NameProviderObj)
    (harg : Option (ProvidersArg A))
    (hnd : ∀ p ∈ (harg.getD c.selfArg).elems,
      dictNodupKeys (p.suggest_context_data np (harg.getD c.selfArg).val)) :
    (∀ k : PyVal, k ∈ dictKeys (c.suggest_context_data np harg)
      ↔ ∃ p ∈ (harg.getD c.selfArg).elems,
          k ∈ dictKeys (p.suggest_context_data np (harg.getD c.selfArg).val))
    ∧ (∀ k : PyVal, dictGet (c.suggest_context_data np harg) k
      = (((harg.getD c.selfArg).elems.map
          (fun p => p.suggest_context_data np (harg.getD c.selfArg).val)).reverse).findSome?
            (fun d => dictGet d k)) := by
  have hds : ∀ d ∈ (harg.getD c.selfArg).elems.map
      (fun p => p.suggest_context_data np (harg.getD c.selfArg).val), dictNodupKeys d := by
    intro d hd
    obtain ⟨p, hp, rfl⟩ := List.mem_map.1 hd
    exact hnd p hp
  have hmem : ∀ (d : CtxDict) (k : PyVal), k ∈ dictKeys d ↔ dictGet d k ≠ none := by
    intro d k
    rw [Ne, dictGet_eq_none_iff, not_not]
  have hval : ∀ k : PyVal, dictGet (c.suggest_context_data np harg) k
      = (((harg.getD c.selfArg).elems.map
          (fun p => p.suggest_context_data np (harg.getD c.selfArg).val)).reverse).findSome?
            (fun d => dictGet d k) := by
    intro k
    rw [composite_ctx_eq_foldl, dictGet_foldl_update k _ hds []]
    exact oOr_none_right _
  refine ⟨fun k => ?_, hval⟩
  rw [hmem, hval k, Ne, List.findSome?_eq_none_iff]
  push_neg
  constructor
  · rintro ⟨d, hd, hne⟩
    rw [List.mem_reverse] at hd
    obtain ⟨p, hp, rfl⟩ := List.mem_map.1 hd
    exact ⟨p, hp, (hmem _ k).2 hne⟩
  · rintro ⟨p, hp, hk⟩
    exact ⟨p.suggest_context_data np (harg.getD c.selfArg).val,
      List.mem_reverse.2 (List.mem_map_of_mem _ hp), (hmem _ k).1 hk⟩

/-- Two concrete children sharing the key a, with distinct values. -/
def d1X : CtxDict := [(PyVal.str ("a"), PyVal.obj 1), (PyVal.str ("b"), PyVal.obj 2)]

def d2X : CtxDict := [(PyVal.str ("a"), PyVal.obj 3)]

def q1X : HintProviderI Unit := ⟨fun _ _ => [], fun _ _ => d1X, fun _ _ _ => []⟩

def q2X : HintProviderI Unit := ⟨fun _ _ => [], fun _ _ => d2X, fun _ _ _ => []⟩

def cX : CompositeTHP Unit := ⟨[q1X, q2X], ()⟩

/-- C2 witness: on the concrete composite, the shared key a gets the value
of the later child. -/
theorem composite_context_merge_witness :
    dictGet (cX.suggest_context_data npX none) (PyVal.str ("a")) = some (PyVal.obj 3) :=
  ((composite_context_merge cX npX none (by decide)).2 (PyVal.str ("a"))).trans (by decide)

/-- C5: under the default template_name pattern, a non-empty hint only adds
the suffix underscore-hint immediately before the .html extension: both the
unhinted and the hinted name share the same prefix. -/
theorem get_template_name_hint_suffix (m : DjangoMeta) (t : Option String) (b : Bool)
    (h : String) (hne : h ≠ "") :
    ∃ pre : String,
      (TemplateNameProvider.mk m).get_template_name ⟨t, b, none⟩ = pre ++ ".html"
      ∧ (TemplateNameProvider.mk m).get_template_name ⟨t, b, some h⟩
          = pre ++ ("_" ++ h ++ ".html") := by
  have htrue : pyTruthyStr (some h) = true := by simp [pyTruthyStr, hne]
  refine ⟨pyLower m.app_label ++ "/"
      ++ (if b || t = some ("partial") then "_" else "")
      ++ pyLower m.object_name
      ++ (if t ≠ some ("partial") then "_" ++ t.getD ("") else ""), ?_, ?_⟩
  · simp [TemplateNameProvider.get_template_name, renderDefaultPattern,
      TemplateNameProvider.get_app_label, TemplateNameProvider.get_model_name,
      pyTruthyStr, String.append_empty, strAppend_assoc]
  · simp [TemplateNameProvider.get_template_name, renderDefaultPattern,
      TemplateNameProvider.get_app_label, TemplateNameProvider.get_model_name,
      htrue, strAppend_assoc]

/-- C5 witness: the hint fancy on the gallery image detail template. -/
theorem get_template_name_hint_suffix_witness :
    ("fancy" : String) ≠ ""
    ∧ ∃ pre : String,
        (TemplateNameProvider.mk metaX).get_template_name ⟨some ("detail"), false, none⟩
          = pre ++ ".html"
        ∧ (TemplateNameProvider.mk metaX).get_template_name
            ⟨some ("detail"), false, some ("fancy")⟩ = pre ++ ("_" ++ "fancy" ++ ".html") :=
  ⟨by decide,
    get_template_name_hint_suffix metaX (some ("detail")) false ("fancy") (by decide)⟩

/-- Key shape predicate: is this Python value a string. -/
def isStrKey : PyVal → Bool
  | PyVal.str _ => true
  | PyVal.obj _ => false
  | PyVal.pyNone => false

/-- C6: every context mapping produced by the module has only string keys:
Renderable.get_context_data by construction, the TemplateHintProvider base
suggest_context_data because it is empty, and the composite merge whenever
all children satisfy the invariant. -/
theorem context_keys_are_strings {A : Type} (r : Renderable) (n : Nat)
    (np : NameProviderObj) (hps : A) (c : CompositeTHP A) (harg : Option (ProvidersArg A))
    (hch : ∀ p ∈ (harg.getD c.selfArg).elems,
      ∀ kv ∈ p.suggest_context_data np (harg.getD c.selfArg).val, isStrKey kv.1 = true) :
    (∀ kv ∈ r.get_context_data n, isStrKey kv.1 = true)
    ∧ (∀ kv ∈ (TemplateHintProvider.base A).suggest_context_data np hps, isStrKey kv.1 = true)
    ∧ (∀ kv ∈ c.suggest_context_data np harg, isStrKey kv.1 = true) := by
  refine ⟨?_, ?_, ?_⟩
  · intro kv hkv
    unfold Renderable.get_context_data at hkv
    rcases mem_dictSet hkv with h1 | h1
    · rw [h1]; rfl
    · rcases mem_dictSet h1 with h2 | h2
      · rw [h2]; rfl
      · exact absurd h2 (List.not_mem_nil kv)
  · intro kv hkv
    exact absurd hkv (List.not_mem_nil kv)
  · intro kv hkv
    rw [composite_ctx_eq_foldl] at hkv
    rcases mem_foldl_update _ _ hkv with h1 | h1
    · exact absurd h1 (List.not_mem_nil kv)
    · obtain ⟨d, hd, hkvd⟩ := h1
      obtain ⟨p, hp, rfl⟩ := List.mem_map.1 hd
      exact hch p hp kv hkvd

/-- A concrete renderable with an explicit context object name. -/
def rX : Renderable := ⟨metaX, some ("picture")⟩

/-- C6 witness: the key object of the concrete renderables context dict is
a string key. -/
theorem context_keys_are_strings_witness :
    isStrKey (Prod.fst (PyVal.str ("object"), PyVal.obj 7)) = true :=
  (context_keys_are_strings rX 7 npX () cX none (by decide)).1
    (PyVal.str ("object"), PyVal.obj 7) (by decide)

/-- Run a stateful operation twice on the same arguments, threading the
receiver state of the first call into the second; return both results and
the final state. -/
def callTwice {σ α β : Type} (f : σ → α → β × σ) (s : σ) (a : α) : (β × β) × σ :=
  (((f s a).1, (f (f s a).2 a).1), (f (f s a).2 a).2)

/-- CompositeTemplateHintProvider.get_template_hints as a state-passing
operation: the method body only reads the receiver (it extends a local
list), so the post-state is the receiver unchanged. -/
def get_template_hintsS {A : Type} (c : CompositeTHP A)
    (a : NameProviderObj × Option (ProvidersArg A)) :
    List (Option String) × CompositeTHP A :=
  (c.get_template_hints a.1 a.2, c)

/-- CompositeTemplateHintProvider.suggest_context_data as a state-passing
operation: the method body only reads the receiver (it updates a local
dict), so the post-state is the receiver unchanged. -/
def suggest_context_dataS {A : Type} (c : CompositeTHP A)
    (a : NameProviderObj × Option (ProvidersArg A)) : CtxDict × CompositeTHP A :=
  (c.suggest_context_data a.1 a.2, c)

/-- TemplateHintProvider.suggest_template_names as a state-passing
operation: the method body only appends to a local list, so the post-state
is the receiver unchanged. -/
def suggest_template_namesS {A : Type} (t : TemplateHintProvider A)
    (a : NameProviderObj × A × KwargsNH) : List String × TemplateHintProvider A :=
  (t.suggest_template_names a.1 a.2.1 a.2.2, t)

/-- TemplateNameProvider.get_template_name as a state-passing operation:
the method builds a local context dict and renders it, never assigning to
the receiver, so the post-state is the receiver unchanged. -/
def get_template_nameS (np : TemplateNameProvider) (kw : Kwargs) :
    String × TemplateNameProvider :=
  (np.get_template_name kw, np)

/-- get_template_names as a state-passing operation: the method body only
extends a local list, so the post-state is the receiver unchanged. -/
def get_template_namesS {A : Type} (np : NameProviderObj)
    (a : ProvidersArg A × KwargsNH) : List String × NameProviderObj :=
  (np.get_template_names a.1 a.2, np)

/-- Renderable.get_context_data as a state-passing operation: the method
returns a dict literal and never assigns to the receiver, so the post-state
is the receiver unchanged. -/
def get_context_dataS (r : Renderable) (n : Nat) : CtxDict × Renderable :=
  (r.get_context_data n, r)

/-- C7: every operation of the module is a deterministic, side-effect-free
data transformation: running any of the six operations twice on the same
receiver and arguments yields two equal results, and the receiver state
after both calls is the initial one. -/
theorem operations_deterministic_stateless {A : Type} (c : CompositeTHP A)
    (np : NameProviderObj) (harg : Option (ProvidersArg A)) (kw : KwargsNH)
    (t : TemplateHintProvider A) (hps : A) (tnp : TemplateNameProvider) (kwf : Kwargs)
    (pargs : ProvidersArg A) (r : Renderable) (n : Nat) :
    (callTwice get_template_hintsS c (np, harg)).1.1
        = (callTwice get_template_hintsS c (np, harg)).1.2
    ∧ (callTwice get_template_hintsS c (np, harg)).2 = c
    ∧ (callTwice suggest_context_dataS c (np, harg)).1.1
        = (callTwice suggest_context_dataS c (np, harg)).1.2
    ∧ (callTwice suggest_context_dataS c (np, harg)).2 = c
    ∧ (callTwice suggest_template_namesS t (np, hps, kw)).1.1
        = (callTwice suggest_template_namesS t (np, hps, kw)).1.2
    ∧ (callTwice suggest_template_namesS t (np, hps, kw)).2 = t
    ∧ (callTwice get_template_nameS tnp kwf).1.1
        = (callTwice get_template_nameS tnp kwf).1.2
    ∧ (callTwice get_template_nameS tnp kwf).2 = tnp
    ∧ (callTwice get_template_namesS np (pargs, kw)).1.1
        = (callTwice get_template_namesS np (pargs, kw)).1.2
    ∧ (callTwice get_template_namesS np (pargs, kw)).2 = np
    ∧ (callTwice get_context_dataS r n).1.1 = (callTwice get_context_dataS r n).1.2
    ∧ (callTwice get_context_dataS r n).2 = r :=
  ⟨rfl, rfl, rfl, rfl, rfl, rfl, rfl, rfl, rfl, rfl, rfl, rfl⟩

/-- C10: for a composite provider, calling any of the three methods with
hint_providers = None gives the same result as passing the composite itself
as the provider list. -/
theorem composite_none_default_eq_self {A : Type} (c : CompositeTHP A)
    (np : NameProviderObj) (kw : KwargsNH) :
    c.get_template_hints np none = c.get_template_hints np (some c.selfArg)
    ∧ c.suggest_context_data np none = c.suggest_context_data np (some c.selfArg)
    ∧ c.suggest_template_names np none kw
        = c.suggest_template_names np (some c.selfArg) kw :=
  ⟨rfl, rfl, rfl⟩

end DjangoMC
